import Mathlib

/-
Verification of the Apex friend-status Telegram bot (`app.py`) against its
natural-language specification.  The Python module is shallowly embedded:
the mutable module-level `data` dict becomes an explicit `BotData` state,
every Telegram side effect (send/edit/answer) and every `save_data()` call
becomes an element of an action trace, and the two external HTTP services
(the Telegram API and the Apex status API) are abstracted as oracles
supplied to the handlers.
-/

set_option autoImplicit false

namespace ApexBot

/-! ## Data model

`data = {"players": {}, "chat_id": None, "adding_player": {}}`.
A Python dict is modelled as an insertion-ordered association list with
unique keys; `dictInsert` overwrites in place (preserving the position of
an existing key, as CPython dicts do), `dictRemove` models `del`. -/

/-- One value of `data["players"]`: the record built in the
`add_platform` branch of `handle_callback`. -/
structure PlayerInfo where
  platform : String
  notify : Bool
  last_state : Option String
  original_name : String
deriving DecidableEq, Repr

/-- The module-level `data` dict. -/
structure BotData where
  players : List (String × PlayerInfo)
  chat_id : Option Int
  adding_player : List (Int × Option String)
deriving DecidableEq, Repr

/-- `d[k] = v` on a Python dict: overwrite in place, else append. -/
def dictInsert {κ α : Type} [DecidableEq κ] (k : κ) (v : α) :
    List (κ × α) → List (κ × α)
  | [] => [(k, v)]
  | (k', v') :: rest =>
      if k' = k then (k, v) :: rest else (k', v') :: dictInsert k v rest

/-- `del d[k]` on a Python dict (also `d.pop(k, None)`). -/
def dictRemove {κ α : Type} [DecidableEq κ] (k : κ) :
    List (κ × α) → List (κ × α)
  | [] => []
  | (k', v') :: rest =>
      if k' = k then rest else (k', v') :: dictRemove k rest

/-- `d.get(k)` / `d[k]` lookup on a Python dict. -/
def dictGet {κ α : Type} [DecidableEq κ] (k : κ) :
    List (κ × α) → Option α
  | [] => none
  | (k', v') :: rest => if k' = k then some v' else dictGet k rest

/-! ## Constants and pure helpers -/

def VALID_PLATFORMS : List String := ["PC", "X1", "PS4", "SWITCH"]

def STATE_TEXT_MAP : List (String × String) :=
  [("offline", "离线"), ("inLobby", "在大厅"), ("inMatch", "游戏中"),
   ("partyLobby", "队伍大厅"), ("away", "暂时离开")]

/-- `STATE_TEXT_MAP.get(key, default)` where the key may be Python `None`
(a `None` key is never present in the map, so it takes the default). -/
def stateTextGet (code : Option String) (dflt : Option String) : Option String :=
  match code with
  | none => dflt
  | some c =>
      match dictGet c STATE_TEXT_MAP with
      | some v => some v
      | none => dflt

/-- Rendering a possibly-`None` Python string inside an f-string. -/
def pyStr (o : Option String) : String := o.getD "None"

/-- `s.lower()` (character-wise, as for the ASCII names involved). -/
def pyLower (s : String) : String := ⟨s.data.map Char.toLower⟩

/-- `s.upper()` (character-wise, as for the ASCII platform tokens). -/
def pyUpper (s : String) : String := ⟨s.data.map Char.toUpper⟩

/-- `s.startswith(p)`. -/
def strStartsWith (s p : String) : Bool := p.data.isPrefixOf s.data

/-- `s.strip()`: drop leading and trailing whitespace. -/
def pyStrip (s : String) : String :=
  ⟨((s.data.dropWhile Char.isWhitespace).reverse.dropWhile Char.isWhitespace).reverse⟩

/-- Split a character list at every occurrence of `c`
(`s.split(c)` for a one-character separator, on a non-empty string). -/
def splitChar (c : Char) : List Char → List (List Char)
  | [] => [[]]
  | x :: xs =>
      let r := splitChar c xs
      if x = c then [] :: r
      else
        match r with
        | [] => [[x]]
        | y :: ys => (x :: y) :: ys

/-- Re-join split parts with the separator (the inverse of `splitChar`;
`sep.join(parts)` in Python terms). -/
def unsplitChar (c : Char) : List (List Char) → List Char
  | [] => []
  | [x] => x
  | x :: y :: rest => x ++ c :: unsplitChar c (y :: rest)

/-- `s.split("|", 1)[1]`: everything after the first `|`.  Only used
under a `startswith` guard that guarantees a `|` occurs, so the
out-of-range branch (Python `IndexError`) is unreachable. -/
def pySplitTail1 (s : String) : String :=
  match splitChar '|' s.data with
  | _ :: rest => ⟨unsplitChar '|' rest⟩
  | [] => ⟨[]⟩

/-- `_, a, b = s.split("|", 2)`: `none` when the unpack raises
`ValueError` (fewer than three parts, i.e. fewer than two `|`). -/
def pySplit2Parts (s : String) : Option (String × String × String) :=
  match splitChar '|' s.data with
  | a :: b :: c :: rest => some (⟨a⟩, ⟨b⟩, ⟨unsplitChar '|' (c :: rest)⟩)
  | _ => none

/-- `is_authorized(username)`: truthy username and case-insensitive
membership in the allow-list.  The allow-list is a parameter (the Python
module reads it from `config.json` at import time). -/
def is_authorized (allowed : List String) (username : String) : Bool :=
  username ≠ "" && (allowed.map pyLower).contains (pyLower username)

/-- `format_duration(ts)`.  Time is explicit: `now` is the value of
`datetime.now(timezone.utc).timestamp()` truncated to whole seconds, and
the timestamp is an integer (`None` for Python `None`).  Python's
`divmod` with a positive divisor is floor division with a non-negative
remainder, i.e. `Int.ediv`/`Int.emod`. -/
def format_duration (now : Int) (ts : Option Int) : String :=
  match ts with
  | none => "未知"
  | some t =>
      if t < 0 then "未知"
      else
        let diff := now - t
        let h := diff / 3600
        let rem := diff % 3600
        let m := rem / 60
        let s := rem % 60
        if h ≠ 0 then toString h ++ "小时" ++ toString m ++ "分钟"
        else if m ≠ 0 then toString m ++ "分钟"
        else toString s ++ "秒"

/-! ## Status fetcher

`fetch_player_status` makes a single HTTP GET.  The network is abstracted
as an `HttpOutcome`: either the transport raised, or a response arrived
with a status code and a body (`none` for a body on which `r.json()`
raises).  A parsed body is the subset of the Apex API response the code
reads: an optional `realtime` object with the three fields used. -/

structure RealtimeInfo where
  currentState : Option String
  currentStateAsText : Option String
  currentStateSinceTimestamp : Option Int
deriving DecidableEq, Repr

structure ApexBody where
  realtime : Option RealtimeInfo
deriving DecidableEq, Repr

inductive HttpOutcome where
  | transportError
  | response (status : Nat) (body : Option ApexBody)
deriving DecidableEq, Repr

/-- The record returned by a successful `fetch_player_status`. -/
structure StatusRecord where
  currentState : Option String
  currentStateAsText : Option String
  currentStateSince : String
deriving DecidableEq, Repr

/-- `fetch_player_status(player, platform)` given the outcome of its one
HTTP request: non-200 status, transport error and malformed body all
yield `None`; success normalizes `realtime` (missing → `{}`). -/
def fetch_player_status (now : Int) (o : HttpOutcome) : Option StatusRecord :=
  match o with
  | .transportError => none
  | .response status body =>
      if status ≠ 200 then none
      else
        match body with
        | none => none
        | some b =>
            let rt := b.realtime.getD ⟨none, none, none⟩
            some { currentState := rt.currentState,
                   currentStateAsText := rt.currentStateAsText,
                   currentStateSince :=
                     format_duration now
                       (some (rt.currentStateSinceTimestamp.getD (-1))) }

/-- One call of `fetch_player_status` against a queue of network
outcomes: it consumes exactly the first outcome (a single attempt; the
rest of the queue is untouched). -/
def fetch_player_status_attempts (now : Int) (pending : List HttpOutcome) :
    Option StatusRecord × List HttpOutcome :=
  match pending with
  | [] => (none, [])
  | o :: rest => (fetch_player_status now o, rest)

/-! ## Action traces

Every outbound Telegram call and every `save_data()` becomes one trace
element, in chronological order.  Inline-keyboard markup is an argument
the handlers compute but the claims never inspect, so only message text
is recorded. -/

inductive TgAction where
  | sendMessage (chat : Int) (text : String)
  | editMessage (chat : Int) (msgId : Int) (text : String)
  | answerCallback (cbid : String)
  | save (d : BotData)
deriving DecidableEq, Repr

/-- Actions visible to a user in the chat (a message being sent or
edited; `answerCallback` only dismisses the client's spinner and `save`
is internal). -/
def TgAction.isUserVisible : TgAction → Bool
  | .sendMessage _ _ => true
  | .editMessage _ _ _ => true
  | _ => false

/-! ## `handle_message`

`handle_message(msg)` for a text message: `cid = msg["chat"]["id"]`,
`user = msg.get("from", {}).get("username", "")` (so a missing username
is the empty string), `text = msg.get("text", "").strip()`. -/

def REJECTION_TEXT : String := "🚫 未授权用户。"

def WELCOME_TEXT : String := "欢迎使用 Apex 状态监控机器人！请选择功能："

def handle_message (allowed : List String) (d : BotData)
    (cid : Int) (user : String) (rawText : String) :
    BotData × List TgAction :=
  let text := pyStrip rawText
  if ¬ is_authorized allowed user then
    (d, [.sendMessage cid REJECTION_TEXT])
  else
    let d1 : BotData := { d with chat_id := some cid }
    if (dictGet cid d1.adding_player).isSome then
      let d2 : BotData :=
        { d1 with adding_player := dictInsert cid (some text) d1.adding_player }
      (d2, [.save d1, .save d2,
            .sendMessage cid ("已收到玩家名：" ++ text ++ "\n请选择该玩家的游戏平台：")])
    else
      (d1, [.save d1, .sendMessage cid WELCOME_TEXT])

/-! ## `handle_callback`

Each `elif` branch of `handle_callback` is embedded as one operation on
the state; `handle_callback` itself parses `cb["data"]` and dispatches.
The sender of a callback query (`cb["from"]`) is part of the Telegram
event but is never read by the code, so `CallbackEvent` carries it and
the handler ignores it.  The `add_platform` branch unpacks
`query.split("|", 2)` into exactly three names and raises `ValueError`
otherwise; a raised exception is `none`. -/

structure CallbackEvent where
  data : String
  chat_id : Int
  message_id : Int
  id : String
  from_username : String
deriving DecidableEq, Repr

/-- The `add_platform|…` branch, after `_, name, pf = query.split("|", 2)`. -/
def cb_add_platform (d : BotData) (cid mid : Int) (name pf0 : String) :
    BotData × List TgAction :=
  let pf := pyUpper pf0
  if ¬ VALID_PLATFORMS.contains pf then
    (d, [.editMessage cid mid ("选择的平台无效：" ++ pf ++ "，请重试。")])
  else
    let key := pyLower name
    let d1 : BotData :=
      { d with
        players := dictInsert key
          { platform := pf, notify := true,
            last_state := none, original_name := name } d.players,
        adding_player := dictRemove cid d.adding_player }
    (d1, [.save d1, .editMessage cid mid ("✅ 成功添加玩家：" ++ name ++ " （" ++ pf ++ "）")])

/-- The `player|…` branch. -/
def cb_player (d : BotData) (cid mid : Int) (key : String) :
    BotData × List TgAction :=
  match dictGet key d.players with
  | some info =>
      (d, [.editMessage cid mid
            ("玩家详情：" ++ info.original_name ++ " （" ++ info.platform ++ ")\n请选择操作：")])
  | none => (d, [.editMessage cid mid "未找到该玩家。"])

/-- The `status|…` branch; `fetchR` is `fetch_player_status` with the
network outcome already resolved per `(player, platform)`. -/
def cb_status (fetchR : String → String → Option StatusRecord)
    (d : BotData) (cid mid : Int) (key : String) :
    BotData × List TgAction :=
  match dictGet key d.players with
  | some info =>
      let txt :=
        match fetchR info.original_name info.platform with
        | some st =>
            "玩家 " ++ info.original_name ++ " 当前状态：\n"
              ++ "🟢 状态：" ++ pyStr (stateTextGet st.currentState st.currentStateAsText)
              ++ "\n⏰ 持续时间：" ++ st.currentStateSince
        | none => "❌ 无法获取玩家状态，请稍后再试。"
      (d, [.editMessage cid mid txt])
  | none => (d, [])

/-- The `toggle_notify|…` branch: flips the flag in place. -/
def cb_toggle_notify (d : BotData) (cid mid : Int) (key : String) :
    BotData × List TgAction :=
  match dictGet key d.players with
  | some info =>
      let info2 : PlayerInfo := { info with notify := !info.notify }
      let d1 : BotData := { d with players := dictInsert key info2 d.players }
      (d1, [.save d1,
            .editMessage cid mid
              ("🔔 通知已" ++ (if info2.notify then "开启" else "关闭") ++ "：" ++ info.original_name)])
  | none => (d, [])

/-- The `remove|…` branch: deletes when present, otherwise does nothing. -/
def cb_remove (d : BotData) (cid mid : Int) (key : String) :
    BotData × List TgAction :=
  match dictGet key d.players with
  | some info =>
      let d1 : BotData := { d with players := dictRemove key d.players }
      (d1, [.save d1, .editMessage cid mid ("✅ 已移除玩家：" ++ info.original_name)])
  | none => (d, [])

/-- The `add_start` branch: `data.setdefault("adding_player", {})[cid] = None`. -/
def cb_add_start (d : BotData) (cid mid : Int) : BotData × List TgAction :=
  let d1 : BotData := { d with adding_player := dictInsert cid none d.adding_player }
  (d1, [.editMessage cid mid
          ("请输入想要添加的玩家名（支持中/英/大小写）：\n\n输入后将选择游戏平台。"),
        .save d1])

/-- The `cancel` branch. -/
def cb_cancel (d : BotData) (cid mid : Int) : BotData × List TgAction :=
  let d1 : BotData := { d with adding_player := dictRemove cid d.adding_player }
  (d1, [.save d1, .editMessage cid mid "已取消操作。"])

/-- `handle_callback(cb)`: answers the callback, then dispatches on the
`query` string through the `if`/`elif` chain; `none` models an uncaught
exception (the malformed `add_platform` unpack). -/
def handle_callback (fetchR : String → String → Option StatusRecord)
    (d : BotData) (cb : CallbackEvent) : Option (BotData × List TgAction) :=
  let query := cb.data
  let cid := cb.chat_id
  let mid := cb.message_id
  let ack : TgAction := .answerCallback cb.id
  if query = "menu" then
    some (d, [ack, .editMessage cid mid "主菜单 - 请选择功能："])
  else if query = "add_start" then
    let r1 := cb_add_start d cid mid
    some (r1.1, ack :: r1.2)
  else if strStartsWith query "add_platform|" then
    match pySplit2Parts query with
    | some (_, name, pf) =>
        let r1 := cb_add_platform d cid mid name pf
        some (r1.1, ack :: r1.2)
    | none => none
  else if query = "cancel" then
    let r1 := cb_cancel d cid mid
    some (r1.1, ack :: r1.2)
  else if query = "list" then
    some (d, [ack, .editMessage cid mid "当前监控玩家列表："])
  else if strStartsWith query "player|" then
    let r1 := cb_player d cid mid (pySplitTail1 query)
    some (r1.1, ack :: r1.2)
  else if strStartsWith query "status|" then
    let r1 := cb_status fetchR d cid mid (pySplitTail1 query)
    some (r1.1, ack :: r1.2)
  else if strStartsWith query "toggle_notify|" then
    let r1 := cb_toggle_notify d cid mid (pySplitTail1 query)
    some (r1.1, ack :: r1.2)
  else if strStartsWith query "remove|" then
    let r1 := cb_remove d cid mid (pySplitTail1 query)
    some (r1.1, ack :: r1.2)
  else
    some (d, [ack])

/-! ## Monitor loop

One iteration of the `while True` body of `monitor_loop`.  A pass walks
`list(data["players"].items())` left to right, carrying the processed
prefix so each `save_data()` records the full registry at that moment. -/

/-- The notification text for a state change. -/
def change_message (name : String) (st : StatusRecord) : String :=
  "玩家 " ++ name ++ " 状态变更为：" ++ pyStr (stateTextGet st.currentState (some "未知"))

def monitor_pass (fetchR : String → String → Option StatusRecord)
    (cid : Int) (d : BotData) :
    List (String × PlayerInfo) → List (String × PlayerInfo) →
    List (String × PlayerInfo) × List TgAction
  | done, [] => (done, [])
  | done, (key, info) :: rest =>
      if info.notify = false then
        monitor_pass fetchR cid d (done ++ [(key, info)]) rest
      else
        match fetchR info.original_name info.platform with
        | none => monitor_pass fetchR cid d (done ++ [(key, info)]) rest
        | some st =>
            if st.currentState = info.last_state then
              monitor_pass fetchR cid d (done ++ [(key, info)]) rest
            else
              let info2 : PlayerInfo := { info with last_state := st.currentState }
              let snapshot := done ++ (key, info2) :: rest
              let tail := monitor_pass fetchR cid d (done ++ [(key, info2)]) rest
              (tail.1,
               TgAction.save { d with players := snapshot }
                 :: TgAction.sendMessage cid (change_message info.original_name st)
                 :: tail.2)

/-- One iteration of `monitor_loop`: `cid = data.get("chat_id")`;
`if not cid` (unset, or the falsy chat id `0`) the iteration only
sleeps; otherwise one pass over the registry. -/
def monitor_iteration (fetchR : String → String → Option StatusRecord)
    (d : BotData) : BotData × List TgAction :=
  match d.chat_id with
  | none => (d, [])
  | some cid =>
      if cid = 0 then (d, [])
      else
        let r := monitor_pass fetchR cid d [] d.players
        ({ d with players := r.1 }, r.2)

/-! ## Registry invariant -/

/-- Every key of the players dict is the lowercased display name of the
record it maps to. -/
def keys_lowered : List (String × PlayerInfo) → Bool
  | [] => true
  | p :: rest => (p.1 == pyLower p.2.original_name) && keys_lowered rest

/-! ## Concrete fixtures used by witnesses and counterexamples -/

def emptyData : BotData := { players := [], chat_id := none, adding_player := [] }

/-- A fetch oracle on which every lookup fails. -/
def fetchNone : String → String → Option StatusRecord := fun _ _ => none

def wraithInfo : PlayerInfo :=
  { platform := "PC", notify := true, last_state := some "offline", original_name := "Wraith" }

def wraithData : BotData :=
  { players := [("wraith", wraithInfo)], chat_id := some 3, adding_player := [] }

def stInMatch : StatusRecord :=
  { currentState := some "inMatch", currentStateAsText := some "In match",
    currentStateSince := "5秒" }

/-- A fetch oracle that reports `Wraith` in a match and fails for
every other player. -/
def fetchInMatch : String → String → Option StatusRecord := fun n _ =>
  if n = "Wraith" then some stInMatch else none

/-- The state produced by the `add_platform|Foo|pc` callback on an
empty registry. -/
def fooAdded : BotData :=
  { players := [("foo", { platform := "PC", notify := true,
                          last_state := none, original_name := "Foo" })],
    chat_id := none, adding_player := [] }

/-- An `add_platform` callback sent by a user outside the allow-list. -/
def cbMallory : CallbackEvent :=
  { data := "add_platform|Foo|pc", chat_id := 5, message_id := 9,
    id := "cb1", from_username := "mallory" }

def wraithInMatchInfo : PlayerInfo :=
  { platform := "PC", notify := true, last_state := some "inMatch", original_name := "Wraith" }

def wraithInMatchData : BotData :=
  { players := [("wraith", wraithInMatchInfo)], chat_id := some 3, adding_player := [] }

/-- A second notify-enabled player, whose fetches will fail. -/
def mirageInfo : PlayerInfo :=
  { platform := "PC", notify := true, last_state := some "offline", original_name := "Mirage" }

/-- A remove callback for a name that is not tracked. -/
def cbGhost : CallbackEvent :=
  { data := "remove|ghost", chat_id := 3, message_id := 1, id := "c9", from_username := "alice" }

/-- A notify-toggle callback for the tracked player. -/
def cbToggleWraith : CallbackEvent :=
  { data := "toggle_notify|wraith", chat_id := 3, message_id := 1, id := "c8", from_username := "alice" }

/-- An add-platform callback used by the C3 witness. -/
def cbAddFoo : CallbackEvent :=
  { data := "add_platform|Foo|pc", chat_id := 5, message_id := 9, id := "cb3", from_username := "alice" }

/-- An add-platform callback carrying an invalid platform token. -/
def cbAddBadPf : CallbackEvent :=
  { data := "add_platform|Foo|xbox", chat_id := 5, message_id := 9, id := "cb4", from_username := "alice" }

/-! ## Dictionary lemmas -/

theorem dictGet_dictInsert_self {κ α : Type} [DecidableEq κ]
    (k : κ) (v : α) (l : List (κ × α)) :
    dictGet k (dictInsert k v l) = some v := by
  induction l with
  | nil => simp [dictInsert, dictGet]
  | cons p rest ih =>
      obtain ⟨k', v'⟩ := p
      by_cases h : k' = k
      · simp [dictInsert, dictGet, h]
      · simp [dictInsert, dictGet, h, ih]

theorem dictInsert_dictInsert_self {κ α : Type} [DecidableEq κ]
    (k : κ) (v w : α) (l : List (κ × α)) :
    dictInsert k v (dictInsert k w l) = dictInsert k v l := by
  induction l with
  | nil => simp [dictInsert]
  | cons p rest ih =>
      obtain ⟨k', v'⟩ := p
      by_cases h : k' = k
      · simp [dictInsert, h]
      · simp [dictInsert, h, ih]

theorem dictInsert_self_of_dictGet {κ α : Type} [DecidableEq κ]
    {k : κ} {v : α} {l : List (κ × α)} (h : dictGet k l = some v) :
    dictInsert k v l = l := by
  induction l with
  | nil => simp [dictGet] at h
  | cons p rest ih =>
      obtain ⟨k', v'⟩ := p
      by_cases hk : k' = k
      · simp [dictGet, hk] at h
        simp [dictInsert, hk, h]
      · simp [dictGet, hk] at h
        simp [dictInsert, hk, ih h]

theorem mem_of_dictGet {κ α : Type} [DecidableEq κ]
    {k : κ} {v : α} {l : List (κ × α)} (h : dictGet k l = some v) :
    (k, v) ∈ l := by
  induction l with
  | nil => simp [dictGet] at h
  | cons p rest ih =>
      obtain ⟨k', v'⟩ := p
      by_cases hk : k' = k
      · simp [dictGet, hk] at h
        simp [hk, h]
      · simp [dictGet, hk] at h
        exact List.mem_cons_of_mem _ (ih h)

/-! ## Key-invariant lemmas -/

theorem keys_lowered_append (a b : List (String × PlayerInfo)) :
    keys_lowered (a ++ b) = (keys_lowered a && keys_lowered b) := by
  induction a with
  | nil => simp [keys_lowered]
  | cons p rest ih => simp [keys_lowered, ih, Bool.and_assoc]

theorem keys_lowered_dictInsert {ps : List (String × PlayerInfo)}
    {k : String} {v : PlayerInfo}
    (h : keys_lowered ps = true) (hk : k = pyLower v.original_name) :
    keys_lowered (dictInsert k v ps) = true := by
  induction ps with
  | nil => simp [dictInsert, keys_lowered, hk]
  | cons p rest ih =>
      obtain ⟨k', v'⟩ := p
      rw [keys_lowered, Bool.and_eq_true] at h
      by_cases hkk : k' = k
      · simp [dictInsert, hkk, keys_lowered, hk, h.2]
      · simp [dictInsert, hkk, keys_lowered, h.1, ih h.2]

theorem keys_lowered_dictRemove {ps : List (String × PlayerInfo)} {k : String}
    (h : keys_lowered ps = true) :
    keys_lowered (dictRemove k ps) = true := by
  induction ps with
  | nil => simpa [dictRemove] using h
  | cons p rest ih =>
      obtain ⟨k', v'⟩ := p
      rw [keys_lowered, Bool.and_eq_true] at h
      by_cases hkk : k' = k
      · simp [dictRemove, hkk, h.2]
      · simp [dictRemove, hkk, keys_lowered, h.1, ih h.2]

theorem keys_lowered_spec {ps : List (String × PlayerInfo)}
    {k : String} {info : PlayerInfo}
    (h : keys_lowered ps = true) (hget : dictGet k ps = some info) :
    k = pyLower info.original_name := by
  induction ps with
  | nil => simp [dictGet] at hget
  | cons p rest ih =>
      obtain ⟨k', v'⟩ := p
      rw [keys_lowered, Bool.and_eq_true] at h
      by_cases hkk : k' = k
      · subst hkk
        simp [dictGet] at hget
        subst hget
        have h1 := h.1
        simp only [beq_iff_eq] at h1
        exact h1
      · simp [dictGet, hkk] at hget
        exact ih h.2 hget

theorem keys_lowered_monitor_pass
    (fetchR : String → String → Option StatusRecord) (cid : Int) (d : BotData) :
    ∀ (todo done : List (String × PlayerInfo)),
      keys_lowered done = true → keys_lowered todo = true →
      keys_lowered (monitor_pass fetchR cid d done todo).1 = true := by
  intro todo
  induction todo with
  | nil =>
      intro done h1 _
      simpa [monitor_pass] using h1
  | cons p rest ih =>
      intro done h1 h2
      obtain ⟨key, info⟩ := p
      rw [keys_lowered, Bool.and_eq_true] at h2
      have hdone1 : keys_lowered (done ++ [(key, info)]) = true := by
        rw [keys_lowered_append]
        simp [h1, keys_lowered, h2.1]
      by_cases hn : info.notify = false
      · simp only [monitor_pass, hn, if_true]
        exact ih _ hdone1 h2.2
      · cases hf : fetchR info.original_name info.platform with
        | none =>
            simp only [monitor_pass, hn, if_false, hf]
            exact ih _ hdone1 h2.2
        | some st =>
            by_cases hs : st.currentState = info.last_state
            · simp only [monitor_pass, hn, if_false, hf, hs, if_true]
              exact ih _ hdone1 h2.2
            · simp only [monitor_pass, hn, if_false, hf, hs]
              refine ih _ ?_ h2.2
              rw [keys_lowered_append]
              simp [h1, keys_lowered, h2.1]

theorem cb_player_fst (d : BotData) (cid mid : Int) (key : String) :
    (cb_player d cid mid key).1 = d := by
  cases hg : dictGet key d.players <;> simp [cb_player, hg]

theorem cb_status_fst (fetchR : String → String → Option StatusRecord)
    (d : BotData) (cid mid : Int) (key : String) :
    (cb_status fetchR d cid mid key).1 = d := by
  cases hg : dictGet key d.players <;> simp [cb_status, hg]

theorem kl_cb_add_platform {d : BotData} (cid mid : Int) (name pf : String)
    (h : keys_lowered d.players = true) :
    keys_lowered (cb_add_platform d cid mid name pf).1.players = true := by
  by_cases hv : pyUpper pf ∈ VALID_PLATFORMS
  · have hki : keys_lowered (dictInsert (pyLower name)
        { platform := pyUpper pf, notify := true,
          last_state := none, original_name := name } d.players) = true :=
      keys_lowered_dictInsert h rfl
    simpa [cb_add_platform, hv] using hki
  · simpa [cb_add_platform, hv] using h

theorem kl_cb_toggle_notify {d : BotData} (cid mid : Int) (key : String)
    (h : keys_lowered d.players = true) :
    keys_lowered (cb_toggle_notify d cid mid key).1.players = true := by
  cases hg : dictGet key d.players with
  | none => simp [cb_toggle_notify, hg, h]
  | some info =>
      simp only [cb_toggle_notify, hg]
      have hk : key = pyLower info.original_name := keys_lowered_spec h hg
      exact keys_lowered_dictInsert h hk

theorem kl_cb_remove {d : BotData} (cid mid : Int) (key : String)
    (h : keys_lowered d.players = true) :
    keys_lowered (cb_remove d cid mid key).1.players = true := by
  cases hg : dictGet key d.players with
  | none => simp [cb_remove, hg, h]
  | some info =>
      simp only [cb_remove, hg]
      exact keys_lowered_dictRemove h

/-! ## String parsing lemmas -/

theorem string_ne_of_head_ne {s t : String} {a b : Char} {as bs : List Char}
    (hs : s.data = a :: as) (ht : t.data = b :: bs) (h : a ≠ b) : s ≠ t := by
  intro e
  rw [e, ht] at hs
  injection hs with h1 _
  exact h h1.symm

theorem strStartsWith_of_data {s p : String} {t : List Char}
    (h : s.data = p.data ++ t) : strStartsWith s p = true := by
  rw [strStartsWith, h]
  exact List.isPrefixOf_iff_prefix.mpr (List.prefix_append _ _)

theorem splitChar_ne_nil (c : Char) (l : List Char) : splitChar c l ≠ [] := by
  cases l with
  | nil => simp [splitChar]
  | cons x xs =>
      simp only [splitChar]
      by_cases h : x = c
      · simp [h]
      · simp only [h, if_false]
        cases hr : splitChar c xs <;> simp

theorem splitChar_not_mem (c : Char) (l : List Char) (h : c ∉ l) :
    splitChar c l = [l] := by
  induction l with
  | nil => rfl
  | cons x xs ih =>
      rw [List.mem_cons, not_or] at h
      have hx : ¬ x = c := fun e => h.1 e.symm
      simp only [splitChar, hx, if_false]
      rw [ih h.2]

theorem splitChar_append_cons (c : Char) (a b : List Char) (h : c ∉ a) :
    splitChar c (a ++ c :: b) = a :: splitChar c b := by
  induction a with
  | nil => simp [splitChar]
  | cons x xs ih =>
      rw [List.mem_cons, not_or] at h
      have hx : ¬ x = c := fun e => h.1 e.symm
      rw [List.cons_append]
      simp only [splitChar, hx, if_false]
      rw [ih h.2]

theorem unsplitChar_splitChar (c : Char) (l : List Char) :
    unsplitChar c (splitChar c l) = l := by
  induction l with
  | nil => rfl
  | cons x xs ih =>
      simp only [splitChar]
      by_cases h : x = c
      · subst h
        simp only [if_true]
        cases hr : splitChar x xs with
        | nil => exact absurd hr (splitChar_ne_nil x xs)
        | cons y ys =>
            rw [hr] at ih
            show [] ++ x :: unsplitChar x (y :: ys) = x :: xs
            rw [List.nil_append, ih]
      · simp only [h, if_false]
        cases hr : splitChar c xs with
        | nil => exact absurd hr (splitChar_ne_nil c xs)
        | cons y ys =>
            rw [hr] at ih
            cases ys with
            | nil => show x :: y = x :: xs; rw [show unsplitChar c [y] = y from rfl] at ih; rw [ih]
            | cons z zs =>
                show (x :: y) ++ c :: unsplitChar c (z :: zs) = x :: xs
                rw [List.cons_append]
                have : y ++ c :: unsplitChar c (z :: zs) = unsplitChar c (y :: z :: zs) := rfl
                rw [this, ih]

theorem pySplitTail1_encode (pre key : String) (hpre : '|' ∉ pre.data) :
    pySplitTail1 (pre ++ "|" ++ key) = key := by
  unfold pySplitTail1
  have hd : (pre ++ "|" ++ key).data = pre.data ++ '|' :: key.data := by
    rw [String.data_append, String.data_append, List.append_assoc]
    rfl
  rw [hd, splitChar_append_cons _ _ _ hpre]
  show (⟨unsplitChar '|' (splitChar '|' key.data)⟩ : String) = key
  rw [unsplitChar_splitChar]

theorem pySplit2Parts_encode (pre name pf : String)
    (hpre : '|' ∉ pre.data) (hn : '|' ∉ name.data) (hp : '|' ∉ pf.data) :
    pySplit2Parts (pre ++ "|" ++ name ++ "|" ++ pf) = some (pre, name, pf) := by
  unfold pySplit2Parts
  have hd : (pre ++ "|" ++ name ++ "|" ++ pf).data
      = pre.data ++ '|' :: (name.data ++ '|' :: pf.data) := by
    rw [String.data_append, String.data_append, String.data_append, String.data_append,
        List.append_assoc, List.append_assoc, List.append_assoc]
    rfl
  rw [hd, splitChar_append_cons _ _ _ hpre, splitChar_append_cons _ _ _ hn,
      splitChar_not_mem _ _ hp]
  rfl

/-! ## Dispatch lemmas: `handle_callback` routes a query to its branch -/

theorem handle_callback_route_add_platform
    (fetchR : String → String → Option StatusRecord) (d : BotData)
    (cb : CallbackEvent) (name pf : String)
    (hq : cb.data = "add_platform|" ++ name ++ "|" ++ pf)
    (hn : '|' ∉ name.data) (hp : '|' ∉ pf.data) :
    handle_callback fetchR d cb =
      some ((cb_add_platform d cb.chat_id cb.message_id name pf).1,
            .answerCallback cb.id :: (cb_add_platform d cb.chat_id cb.message_id name pf).2) := by
  have e1 : cb.data ≠ "menu" := by
    rw [hq]; exact string_ne_of_head_ne rfl rfl (by decide)
  have e3 : strStartsWith cb.data "add_platform|" = true := by
    rw [hq]
    have hdata : ("add_platform|" ++ name ++ "|" ++ pf).data =
        ("add_platform|" : String).data ++ (name.data ++ '|' :: pf.data) := by
      rw [String.data_append, String.data_append, String.data_append,
          List.append_assoc, List.append_assoc]
      rfl
    exact strStartsWith_of_data hdata
  have e2 : cb.data ≠ "add_start" := by
    intro e
    rw [e] at e3
    exact absurd e3 (by decide)
  have e4 : pySplit2Parts cb.data = some ("add_platform", name, pf) := by
    rw [hq]
    exact pySplit2Parts_encode "add_platform" name pf (by decide) hn hp
  simp [handle_callback, e1, e2, e3, e4]

theorem handle_callback_route_toggle_notify
    (fetchR : String → String → Option StatusRecord) (d : BotData)
    (cb : CallbackEvent) (key : String)
    (hq : cb.data = "toggle_notify|" ++ key) :
    handle_callback fetchR d cb =
      some ((cb_toggle_notify d cb.chat_id cb.message_id key).1,
            .answerCallback cb.id :: (cb_toggle_notify d cb.chat_id cb.message_id key).2) := by
  have e1 : cb.data ≠ "menu" := by
    rw [hq]; exact string_ne_of_head_ne rfl rfl (by decide)
  have e2 : cb.data ≠ "add_start" := by
    rw [hq]; exact string_ne_of_head_ne rfl rfl (by decide)
  have e3 : strStartsWith cb.data "add_platform|" = false := by rw [hq]; rfl
  have e4 : cb.data ≠ "cancel" := by
    rw [hq]; exact string_ne_of_head_ne rfl rfl (by decide)
  have e5 : cb.data ≠ "list" := by
    rw [hq]; exact string_ne_of_head_ne rfl rfl (by decide)
  have e6 : strStartsWith cb.data "player|" = false := by rw [hq]; rfl
  have e7 : strStartsWith cb.data "status|" = false := by rw [hq]; rfl
  have e8 : strStartsWith cb.data "toggle_notify|" = true := by
    rw [hq]
    have hdata : ("toggle_notify|" ++ key).data =
        ("toggle_notify|" : String).data ++ key.data := by rw [String.data_append]
    exact strStartsWith_of_data hdata
  have e9 : pySplitTail1 cb.data = key := by
    rw [hq]
    exact pySplitTail1_encode "toggle_notify" key (by decide)
  simp [handle_callback, e1, e2, e3, e4, e5, e6, e7, e8, e9]

theorem handle_callback_route_remove
    (fetchR : String → String → Option StatusRecord) (d : BotData)
    (cb : CallbackEvent) (key : String)
    (hq : cb.data = "remove|" ++ key) :
    handle_callback fetchR d cb =
      some ((cb_remove d cb.chat_id cb.message_id key).1,
            .answerCallback cb.id :: (cb_remove d cb.chat_id cb.message_id key).2) := by
  have e1 : cb.data ≠ "menu" := by
    rw [hq]; exact string_ne_of_head_ne rfl rfl (by decide)
  have e2 : cb.data ≠ "add_start" := by
    rw [hq]; exact string_ne_of_head_ne rfl rfl (by decide)
  have e3 : strStartsWith cb.data "add_platform|" = false := by rw [hq]; rfl
  have e4 : cb.data ≠ "cancel" := by
    rw [hq]; exact string_ne_of_head_ne rfl rfl (by decide)
  have e5 : cb.data ≠ "list" := by
    rw [hq]; exact string_ne_of_head_ne rfl rfl (by decide)
  have e6 : strStartsWith cb.data "player|" = false := by rw [hq]; rfl
  have e7 : strStartsWith cb.data "status|" = false := by rw [hq]; rfl
  have e8 : strStartsWith cb.data "toggle_notify|" = false := by rw [hq]; rfl
  have e9 : strStartsWith cb.data "remove|" = true := by
    rw [hq]
    have hdata : ("remove|" ++ key).data =
        ("remove|" : String).data ++ key.data := by rw [String.data_append]
    exact strStartsWith_of_data hdata
  have e10 : pySplitTail1 cb.data = key := by
    rw [hq]
    exact pySplitTail1_encode "remove" key (by decide)
  simp [handle_callback, e1, e2, e3, e4, e5, e6, e7, e8, e9, e10]

/-! ## Claim C6: status fetch failure handling -/

/-- C6: `fetch_player_status` never raises: every non-success HTTP
status, transport error, or malformed body yields `None`; a 200 response
with a parseable body yields the normalized status record (provider
state code, display text, formatted duration); and a call consumes
exactly one network attempt, leaving the rest of the queue untouched. -/
theorem C6_fetch_single_attempt_failure_modes :
    (∀ (now : Int) (status : Nat) (body : Option ApexBody), status ≠ 200 →
        fetch_player_status now (.response status body) = none) ∧
    (∀ now : Int, fetch_player_status now .transportError = none) ∧
    (∀ now : Int, fetch_player_status now (.response 200 none) = none) ∧
    (∀ (now : Int) (b : ApexBody),
        fetch_player_status now (.response 200 (some b)) =
          some { currentState := (b.realtime.getD ⟨none, none, none⟩).currentState,
                 currentStateAsText := (b.realtime.getD ⟨none, none, none⟩).currentStateAsText,
                 currentStateSince := format_duration now
                   (some ((b.realtime.getD ⟨none, none, none⟩).currentStateSinceTimestamp.getD (-1))) }) ∧
    (∀ (now : Int) (o : HttpOutcome) (rest : List HttpOutcome),
        fetch_player_status_attempts now (o :: rest) = (fetch_player_status now o, rest)) := by
  refine ⟨?_, ?_, ?_, ?_, ?_⟩
  · intro now status body h
    simp [fetch_player_status, h]
  · intro now
    rfl
  · intro now
    rfl
  · intro now b
    rfl
  · intro now o rest
    rfl

/-- C6 witness: the failure modes and the success shape at concrete
inputs. -/
theorem C6_fetch_single_attempt_failure_modes_witness :
    fetch_player_status 0 (.response 404 none) = none ∧
    fetch_player_status 0 .transportError = none ∧
    fetch_player_status 0 (.response 200 none) = none ∧
    fetch_player_status 7 (.response 200 (some ⟨some ⟨some "offline", some "Offline", some 3⟩⟩)) =
      some { currentState := some "offline", currentStateAsText := some "Offline",
             currentStateSince := format_duration 7 (some 3) } ∧
    fetch_player_status_attempts 0 [.transportError] = (none, []) :=
  ⟨C6_fetch_single_attempt_failure_modes.1 0 404 none (by decide),
   C6_fetch_single_attempt_failure_modes.2.1 0,
   C6_fetch_single_attempt_failure_modes.2.2.1 0,
   C6_fetch_single_attempt_failure_modes.2.2.2.1 7 ⟨some ⟨some "offline", some "Offline", some 3⟩⟩,
   C6_fetch_single_attempt_failure_modes.2.2.2.2 0 .transportError []⟩

/-! ## Claim C7: duration formatting -/

/-- C7 counterexample: the timestamp `1005` at current time `1000` is
neither missing nor negative and its elapsed time is below one minute,
yet the formatter returns an hours+minutes string (Python's floor
`divmod` on the negative difference), not a seconds-only string. -/
theorem C7_duration_counterexample :
    (0 : Int) ≤ 1005 ∧ (1000 : Int) - 1005 < 60 ∧
    format_duration 1000 (some 1005) = "-1小时59分钟" ∧
    format_duration 1000 (some 1005) ≠ "-5秒" ∧
    format_duration 1000 (some 1005) ≠ "5秒" ∧
    format_duration 1000 (some 1005) ≠ "未知" := by
  refine ⟨by decide, by decide, by decide, by decide, by decide, by decide⟩

/-- C7 (amended): for a timestamp not exceeding the current time, the
formatter returns hours+minutes when the elapsed time is at least one
hour, minutes-only when it is at least one minute and below one hour,
and seconds-only (showing exactly the elapsed seconds) below one
minute; a missing or negative timestamp yields the unknown string. -/
theorem C7_duration_granularities (now t : Int) :
    format_duration now none = "未知" ∧
    (t < 0 → format_duration now (some t) = "未知") ∧
    (0 ≤ t → 3600 ≤ now - t →
      format_duration now (some t) =
        toString ((now - t) / 3600) ++ "小时" ++ toString ((now - t) % 3600 / 60) ++ "分钟") ∧
    (0 ≤ t → 60 ≤ now - t → now - t < 3600 →
      format_duration now (some t) = toString ((now - t) / 60) ++ "分钟") ∧
    (0 ≤ t → 0 ≤ now - t → now - t < 60 →
      format_duration now (some t) = toString (now - t) ++ "秒") := by
  refine ⟨rfl, ?_, ?_, ?_, ?_⟩
  · intro h
    simp [format_duration, h]
  · intro h0 hbig
    have hneg : ¬ t < 0 := by omega
    have hh : (now - t) / 3600 ≠ 0 := by omega
    simp [format_duration, hneg, hh]
  · intro h0 hlo hhi
    have hneg : ¬ t < 0 := by omega
    have hh : ¬ ((now - t) / 3600 ≠ 0) := by omega
    have heq : (now - t) % 3600 / 60 = (now - t) / 60 := by omega
    have hm : (now - t) / 60 ≠ 0 := by omega
    simp [format_duration, hneg, hh, heq, hm]
  · intro h0 hlo hhi
    have hneg : ¬ t < 0 := by omega
    have hh : ¬ ((now - t) / 3600 ≠ 0) := by omega
    have hm : ¬ ((now - t) % 3600 / 60 ≠ 0) := by omega
    have heq : (now - t) % 3600 % 60 = now - t := by omega
    simp [format_duration, hneg, hh, hm, heq]

/-- C7 witness: the spec's three examples and the unknown case. -/
theorem C7_duration_granularities_witness :
    format_duration 10000 (some 6339) = "1小时1分钟" ∧
    format_duration 10000 (some 9939) = "1分钟" ∧
    format_duration 10000 (some 9995) = "5秒" ∧
    format_duration 10000 (some (-1)) = "未知" :=
  ⟨(C7_duration_granularities 10000 6339).2.2.1 (by decide) (by decide),
   (C7_duration_granularities 10000 9939).2.2.2.1 (by decide) (by decide) (by decide),
   (C7_duration_granularities 10000 9995).2.2.2.2 (by decide) (by decide) (by decide),
   (C7_duration_granularities 10000 (-1)).2.1 (by decide)⟩

/-! ## Claim C10: every authorized message rebinds the active chat -/

/-- C10: every authorized inbound text message — whatever its content —
sets the active chat id to the message's chat and persists a state with
that chat id. -/
theorem C10_active_chat_rebind (allowed : List String) (d : BotData)
    (cid : Int) (user rawText : String)
    (h : is_authorized allowed user = true) :
    (handle_message allowed d cid user rawText).1.chat_id = some cid ∧
    TgAction.save { d with chat_id := some cid } ∈
      (handle_message allowed d cid user rawText).2 := by
  by_cases hp : (dictGet cid d.adding_player).isSome
  · simp [handle_message, h, hp]
  · simp [handle_message, h, hp]

/-- C10 witness: an arbitrary non-command text from an authorized user
rebinds the active chat. -/
theorem C10_active_chat_rebind_witness :
    (handle_message ["alice"] emptyData 7 "alice" "hello").1.chat_id = some 7 ∧
    TgAction.save { emptyData with chat_id := some 7 } ∈
      (handle_message ["alice"] emptyData 7 "alice" "hello").2 :=
  C10_active_chat_rebind ["alice"] emptyData 7 "alice" "hello" (by decide)

/-! ## Claim C2: authorization gating -/

/-- C2 counterexample: a callback event from a user outside the
allow-list is processed anyway — the registry is mutated and no
rejection message is produced (the code never reads a callback's
sender). -/
theorem C2_callback_unauthorized_counterexample :
    is_authorized ["alice"] "mallory" = false ∧
    handle_callback fetchNone emptyData cbMallory =
      some (fooAdded,
        [.answerCallback "cb1", .save fooAdded, .editMessage 5 9 "✅ 成功添加玩家：Foo （PC）"]) ∧
    fooAdded.players ≠ emptyData.players := by
  refine ⟨by decide, by decide, by decide⟩

/-- C2 (amended): only the text-message surface is gated: an
unauthorized message yields exactly the fixed rejection and no state
change, while the callback surface ignores the sender entirely (its
result never depends on the sender's username). -/
theorem C2_gating_message_surface_only (allowed : List String) (d : BotData)
    (cid : Int) (user rawText u : String)
    (fetchR : String → String → Option StatusRecord) (cb : CallbackEvent)
    (h : is_authorized allowed user = false) :
    handle_message allowed d cid user rawText = (d, [.sendMessage cid REJECTION_TEXT]) ∧
    handle_callback fetchR d { cb with from_username := u } =
      handle_callback fetchR d cb := by
  constructor
  · simp [handle_message, h]
  · rfl

/-- C2 witness: a rejected command from an unlisted user, and a callback
whose handling is insensitive to the sender. -/
theorem C2_gating_message_surface_only_witness :
    handle_message ["alice"] emptyData 7 "mallory" "/list" =
      (emptyData, [.sendMessage 7 REJECTION_TEXT]) ∧
    handle_callback fetchNone emptyData { cbMallory with from_username := "zzz" } =
      handle_callback fetchNone emptyData cbMallory :=
  C2_gating_message_surface_only ["alice"] emptyData 7 "mallory" "/list" "zzz"
    fetchNone cbMallory (by decide)

/-! ## Claim C3: registry add -/

/-- C3: an `add_platform` callback with a platform token whose
upper-casing is outside the fixed enum fails with the invalid-platform
message and leaves the whole state unchanged; with a valid token it
inserts (overwriting) the record keyed by the lowercased name, with
notifications on, no observed state, and the display name preserved,
persists it, and a get on the lowercased key returns exactly that
record. -/
theorem C3_registry_add (fetchR : String → String → Option StatusRecord)
    (d : BotData) (cb : CallbackEvent) (name pf : String)
    (hq : cb.data = "add_platform|" ++ name ++ "|" ++ pf)
    (hn : '|' ∉ name.data) (hp : '|' ∉ pf.data) :
    (VALID_PLATFORMS.contains (pyUpper pf) = false →
      handle_callback fetchR d cb =
        some (d, [.answerCallback cb.id,
                  .editMessage cb.chat_id cb.message_id
                    ("选择的平台无效：" ++ pyUpper pf ++ "，请重试。")])) ∧
    (VALID_PLATFORMS.contains (pyUpper pf) = true →
      handle_callback fetchR d cb =
        some ({ d with
                  players := dictInsert (pyLower name)
                    { platform := pyUpper pf, notify := true,
                      last_state := none, original_name := name } d.players,
                  adding_player := dictRemove cb.chat_id d.adding_player },
              [.answerCallback cb.id,
               .save { d with
                         players := dictInsert (pyLower name)
                           { platform := pyUpper pf, notify := true,
                             last_state := none, original_name := name } d.players,
                         adding_player := dictRemove cb.chat_id d.adding_player },
               .editMessage cb.chat_id cb.message_id
                 ("✅ 成功添加玩家：" ++ name ++ " （" ++ pyUpper pf ++ "）")]) ∧
      dictGet (pyLower name)
          (dictInsert (pyLower name)
            { platform := pyUpper pf, notify := true,
              last_state := none, original_name := name } d.players) =
        some { platform := pyUpper pf, notify := true,
               last_state := none, original_name := name }) := by
  have hr := handle_callback_route_add_platform fetchR d cb name pf hq hn hp
  constructor
  · intro hv
    have hv2 : pyUpper pf ∉ VALID_PLATFORMS := by simpa using hv
    rw [hr]
    simp [cb_add_platform, hv2]
  · intro hv
    have hv2 : pyUpper pf ∈ VALID_PLATFORMS := by simpa using hv
    refine ⟨?_, dictGet_dictInsert_self _ _ _⟩
    rw [hr]
    simp [cb_add_platform, hv2]

/-- C3 witness: an invalid token is rejected without touching the state
and a valid one stores the normalized record retrievable under the
lowercased key. -/
theorem C3_registry_add_witness :
    handle_callback fetchNone emptyData cbAddBadPf =
      some (emptyData,
        [.answerCallback "cb4", .editMessage 5 9 "选择的平台无效：XBOX，请重试。"]) ∧
    handle_callback fetchNone emptyData cbAddFoo =
      some (fooAdded,
        [.answerCallback "cb3", .save fooAdded, .editMessage 5 9 "✅ 成功添加玩家：Foo （PC）"]) ∧
    dictGet "foo" fooAdded.players =
      some { platform := "PC", notify := true, last_state := none, original_name := "Foo" } :=
  ⟨(C3_registry_add fetchNone emptyData cbAddBadPf "Foo" "xbox"
      (by decide) (by decide) (by decide)).1 (by decide),
   ((C3_registry_add fetchNone emptyData cbAddFoo "Foo" "pc"
      (by decide) (by decide) (by decide)).2 (by decide)).1,
   ((C3_registry_add fetchNone emptyData cbAddFoo "Foo" "pc"
      (by decide) (by decide) (by decide)).2 (by decide)).2⟩

/-! ## Claim C5: remove on an untracked name -/

/-- C5 counterexample: removing the untracked name `ghost` leaves the
registry unchanged but produces no user-visible message at all — only
the generic callback acknowledgment — so no not-found outcome is shown
to the user. -/
theorem C5_remove_untracked_counterexample :
    dictGet "ghost" wraithData.players = none ∧
    handle_callback fetchNone wraithData cbGhost =
      some (wraithData, [.answerCallback "c9"]) ∧
    (handle_callback fetchNone wraithData cbGhost).map
        (fun r => r.2.filter TgAction.isUserVisible) = some [] := by
  refine ⟨by decide, by decide, by decide⟩

/-- C5 (amended): a remove callback for a name whose lowercased key is
absent leaves the whole state (registry included) unchanged and emits no
user-visible message — the not-found case is silent, apart from the
callback acknowledgment. -/
theorem C5_remove_untracked_silent (fetchR : String → String → Option StatusRecord)
    (d : BotData) (cb : CallbackEvent) (key : String)
    (hq : cb.data = "remove|" ++ key)
    (habs : dictGet key d.players = none) :
    handle_callback fetchR d cb = some (d, [.answerCallback cb.id]) ∧
    (handle_callback fetchR d cb).map
        (fun r => r.2.filter TgAction.isUserVisible) = some [] := by
  have hr := handle_callback_route_remove fetchR d cb key hq
  have hb : cb_remove d cb.chat_id cb.message_id key = (d, []) := by
    simp [cb_remove, habs]
  rw [hb] at hr
  exact ⟨hr, by rw [hr]; rfl⟩

/-- C5 witness: the silent not-found remove at a concrete state. -/
theorem C5_remove_untracked_silent_witness :
    handle_callback fetchNone wraithData
        { cbGhost with data := "remove|mirage" } =
      some (wraithData, [.answerCallback "c9"]) ∧
    (handle_callback fetchNone wraithData { cbGhost with data := "remove|mirage" }).map
        (fun r => r.2.filter TgAction.isUserVisible) = some [] :=
  C5_remove_untracked_silent fetchNone wraithData
    { cbGhost with data := "remove|mirage" } "mirage" (by decide) (by decide)

/-! ## Claim C8: notify toggling -/

/-- C8 counterexample: the code's notify operation is a toggle, not an
idempotent set-on: applying the callback twice to a tracked player does
not equal applying it once (once disables the flag, twice restores the
original state). -/
theorem C8_toggle_not_idempotent_counterexample :
    ((handle_callback fetchNone wraithData cbToggleWraith).map Prod.fst).bind
        (fun d1 => (handle_callback fetchNone d1 cbToggleWraith).map Prod.fst) ≠
      (handle_callback fetchNone wraithData cbToggleWraith).map Prod.fst ∧
    ((handle_callback fetchNone wraithData cbToggleWraith).map Prod.fst).bind
        (fun d1 => (handle_callback fetchNone d1 cbToggleWraith).map Prod.fst) =
      some wraithData ∧
    (handle_callback fetchNone wraithData cbToggleWraith).map Prod.fst =
      some { wraithData with
               players := [("wraith", { wraithInfo with notify := false })] } := by
  refine ⟨by decide, by decide, by decide⟩

/-- C8 (amended): the notify operation the code exposes is a toggle and
an involution: one application flips the tracked player's flag in place,
and a second application restores exactly the original registry state.
The idempotent set-on operation of the claim does not exist. -/
theorem C8_toggle_involution (fetchR : String → String → Option StatusRecord)
    (d : BotData) (cb : CallbackEvent) (key : String) (info : PlayerInfo)
    (hq : cb.data = "toggle_notify|" ++ key)
    (hg : dictGet key d.players = some info) :
    (handle_callback fetchR d cb).map Prod.fst =
      some { d with players := dictInsert key { info with notify := !info.notify } d.players } ∧
    ((handle_callback fetchR d cb).map Prod.fst).bind
        (fun d1 => (handle_callback fetchR d1 cb).map Prod.fst) = some d := by
  have hr := handle_callback_route_toggle_notify fetchR d cb key hq
  have hb : cb_toggle_notify d cb.chat_id cb.message_id key =
      ({ d with players := dictInsert key { info with notify := !info.notify } d.players },
       [.save { d with players := dictInsert key { info with notify := !info.notify } d.players },
        .editMessage cb.chat_id cb.message_id
          ("🔔 通知已" ++ (if !info.notify then "开启" else "关闭") ++ "：" ++ info.original_name)]) := by
    simp [cb_toggle_notify, hg]
  rw [hb] at hr
  constructor
  · rw [hr]
    rfl
  · rw [hr]
    have hr2 := handle_callback_route_toggle_notify fetchR
      { d with players := dictInsert key { info with notify := !info.notify } d.players } cb key hq
    have hg2 : dictGet key
        (dictInsert key { info with notify := !info.notify } d.players) =
        some { info with notify := !info.notify } := dictGet_dictInsert_self _ _ _
    have hb2 : cb_toggle_notify
        { d with players := dictInsert key { info with notify := !info.notify } d.players }
        cb.chat_id cb.message_id key =
        ({ d with players := d.players },
         [.save { d with players := d.players },
          .editMessage cb.chat_id cb.message_id
            ("🔔 通知已" ++ (if !(!info.notify) then "开启" else "关闭") ++ "：" ++ info.original_name)]) := by
      simp only [cb_toggle_notify, hg2]
      have hi : ({ info with notify := !(!info.notify) } : PlayerInfo) = info := by
        cases info
        simp
      simp only [hi, dictInsert_dictInsert_self]
      rw [dictInsert_self_of_dictGet hg]
    rw [hb2] at hr2
    show (handle_callback fetchR
        { d with players := dictInsert key { info with notify := !info.notify } d.players }
        cb).map Prod.fst = some d
    rw [hr2]
    rfl

/-- C8 witness: toggling the tracked player once flips its flag and
twice restores the original registry. -/
theorem C8_toggle_involution_witness :
    (handle_callback fetchNone wraithData cbToggleWraith).map Prod.fst =
      some { wraithData with
               players := dictInsert "wraith"
                 { wraithInfo with notify := !wraithInfo.notify } wraithData.players } ∧
    ((handle_callback fetchNone wraithData cbToggleWraith).map Prod.fst).bind
        (fun d1 => (handle_callback fetchNone d1 cbToggleWraith).map Prod.fst) =
      some wraithData :=
  C8_toggle_involution fetchNone wraithData cbToggleWraith "wraith" wraithInfo
    (by decide) (by decide)

/-! ## Claim C1: notification loop pass -/

/-- C1: with one notify-enabled player last seen offline and a fetch
reporting `inMatch`, one monitor pass updates the stored state, saves
it, and sends exactly one change message to the active chat; a second
pass whose fetch agrees with the stored state sends nothing; and a pass
skips a player whose fetch fails and continues with the rest. -/
theorem C1_notification_pass (key name pf : String)
    (ap : List (Int × Option String)) (cid : Int)
    (fetch1 fetch2 fetchR : String → String → Option StatusRecord)
    (st1 st2 : StatusRecord)
    (dd : BotData) (done rest : List (String × PlayerInfo))
    (k2 : String) (info2 : PlayerInfo) (cid2 : Int)
    (hcid : cid ≠ 0)
    (h1 : fetch1 name pf = some st1) (hst1 : st1.currentState = some "inMatch")
    (h2 : fetch2 name pf = some st2) (hst2 : st2.currentState = some "inMatch")
    (hn2 : info2.notify = true)
    (hf2 : fetchR info2.original_name info2.platform = none) :
    monitor_iteration fetch1
      { players := [(key, { platform := pf, notify := true,
                            last_state := some "offline", original_name := name })],
        chat_id := some cid, adding_player := ap } =
      ({ players := [(key, { platform := pf, notify := true,
                             last_state := some "inMatch", original_name := name })],
         chat_id := some cid, adding_player := ap },
       [.save { players := [(key, { platform := pf, notify := true,
                                    last_state := some "inMatch", original_name := name })],
                chat_id := some cid, adding_player := ap },
        .sendMessage cid (change_message name st1)]) ∧
    monitor_iteration fetch2
      { players := [(key, { platform := pf, notify := true,
                            last_state := some "inMatch", original_name := name })],
        chat_id := some cid, adding_player := ap } =
      ({ players := [(key, { platform := pf, notify := true,
                             last_state := some "inMatch", original_name := name })],
         chat_id := some cid, adding_player := ap }, []) ∧
    monitor_pass fetchR cid2 dd done ((k2, info2) :: rest) =
      monitor_pass fetchR cid2 dd (done ++ [(k2, info2)]) rest := by
  refine ⟨?_, ?_, ?_⟩
  · have hne : st1.currentState ≠ some "offline" := by simp [hst1]
    simp [monitor_iteration, hcid, monitor_pass, h1, hne, hst1]
  · simp [monitor_iteration, hcid, monitor_pass, h2, hst2]
  · simp [monitor_pass, hn2, hf2]

/-- C1 witness: the scenario at a concrete registry, with a concrete
failing fetch for a second player skipped ahead of a live one. -/
theorem C1_notification_pass_witness :
    monitor_iteration fetchInMatch wraithData =
      (wraithInMatchData,
       [.save wraithInMatchData, .sendMessage 3 (change_message "Wraith" stInMatch)]) ∧
    monitor_iteration fetchInMatch wraithInMatchData = (wraithInMatchData, []) ∧
    monitor_pass fetchInMatch 3 wraithData [] [("mirage", mirageInfo), ("wraith", wraithInfo)] =
      monitor_pass fetchInMatch 3 wraithData [("mirage", mirageInfo)] [("wraith", wraithInfo)] :=
  C1_notification_pass "wraith" "Wraith" "PC" [] 3 fetchInMatch fetchInMatch fetchInMatch
    stInMatch stInMatch wraithData [] [("wraith", wraithInfo)] "mirage" mirageInfo 3
    (by decide) (by decide) (by decide) (by decide) (by decide) (by decide) (by decide)

/-! ## Claim C4: the text surface -/

/-- C4 counterexample: an authorized `/remove Wraith` text is not
dispatched to a registry removal (nor to any command): the registry is
unchanged, the player is still tracked, and the reply is the fixed
welcome/main-menu message. -/
theorem C4_text_command_counterexample :
    is_authorized ["alice"] "alice" = true ∧
    handle_message ["alice"] wraithData 3 "alice" "/remove Wraith" =
      (wraithData, [.save wraithData, .sendMessage 3 WELCOME_TEXT]) ∧
    dictGet "wraith" (handle_message ["alice"] wraithData 3 "alice" "/remove Wraith").1.players =
      some wraithInfo := by
  refine ⟨by decide, by decide, by decide⟩

/-- C4 (amended): the text surface implements no slash commands at all.
An authorized text, whatever its content, never mutates the players
registry; it rebinds the active chat, and it is either consumed as the
pending-addition player name (when the chat has a pending addition) or
answered with the fixed welcome/main-menu message. -/
theorem C4_no_text_command_dispatch (allowed : List String) (d : BotData)
    (cid : Int) (user rawText : String)
    (h : is_authorized allowed user = true) :
    (handle_message allowed d cid user rawText).1.players = d.players ∧
    (handle_message allowed d cid user rawText).1.chat_id = some cid ∧
    ((dictGet cid d.adding_player).isSome = false →
      handle_message allowed d cid user rawText =
        ({ d with chat_id := some cid },
         [.save { d with chat_id := some cid }, .sendMessage cid WELCOME_TEXT])) ∧
    ((dictGet cid d.adding_player).isSome = true →
      (handle_message allowed d cid user rawText).1.adding_player =
        dictInsert cid (some (pyStrip rawText)) d.adding_player) := by
  by_cases hp : (dictGet cid d.adding_player).isSome
  · simp [handle_message, h, hp]
  · simp [handle_message, h, hp]

/-- C4 witness: an authorized `/help` gets the welcome menu, not a help
text, and changes no registry entry. -/
theorem C4_no_text_command_dispatch_witness :
    (handle_message ["alice"] emptyData 7 "alice" "/help").1.players = emptyData.players ∧
    (handle_message ["alice"] emptyData 7 "alice" "/help").1.chat_id = some 7 ∧
    ((dictGet 7 emptyData.adding_player).isSome = false →
      handle_message ["alice"] emptyData 7 "alice" "/help" =
        ({ emptyData with chat_id := some 7 },
         [.save { emptyData with chat_id := some 7 }, .sendMessage 7 WELCOME_TEXT])) ∧
    ((dictGet 7 emptyData.adding_player).isSome = true →
      (handle_message ["alice"] emptyData 7 "alice" "/help").1.adding_player =
        dictInsert 7 (some (pyStrip "/help")) emptyData.adding_player) :=
  C4_no_text_command_dispatch ["alice"] emptyData 7 "alice" "/help" (by decide)

/-! ## Claim C9: registry key invariant -/

/-- C9: the key invariant — every players key equals the lowercased
display name of its record — is preserved by every public operation:
any callback handling (add, remove, toggle and the read-only branches),
any text-message handling, and any monitor-loop iteration (which records
observed states). -/
theorem C9_registry_key_invariant :
    (∀ (fetchR : String → String → Option StatusRecord) (d : BotData)
        (cb : CallbackEvent) (r : BotData × List TgAction),
        keys_lowered d.players = true → handle_callback fetchR d cb = some r →
        keys_lowered r.1.players = true) ∧
    (∀ (allowed : List String) (d : BotData) (cid : Int) (user rawText : String),
        keys_lowered d.players = true →
        keys_lowered (handle_message allowed d cid user rawText).1.players = true) ∧
    (∀ (fetchR : String → String → Option StatusRecord) (d : BotData),
        keys_lowered d.players = true →
        keys_lowered (monitor_iteration fetchR d).1.players = true) := by
  refine ⟨?_, ?_, ?_⟩
  · intro fetchR d cb r h hr
    unfold handle_callback at hr
    dsimp only at hr
    split_ifs at hr with h1 h2 h3 h4 h5 h6 h7 h8 h9
    · rw [Option.some_inj] at hr
      rw [← hr]
      exact h
    · rw [Option.some_inj] at hr
      rw [← hr]
      exact h
    · split at hr
      · rw [Option.some_inj] at hr
        rw [← hr]
        exact kl_cb_add_platform cb.chat_id cb.message_id _ _ h
      · exact absurd hr (by simp)
    · rw [Option.some_inj] at hr
      rw [← hr]
      exact h
    · rw [Option.some_inj] at hr
      rw [← hr]
      exact h
    · rw [Option.some_inj] at hr
      rw [← hr]
      rw [cb_player_fst]
      exact h
    · rw [Option.some_inj] at hr
      rw [← hr]
      rw [cb_status_fst]
      exact h
    · rw [Option.some_inj] at hr
      rw [← hr]
      exact kl_cb_toggle_notify cb.chat_id cb.message_id _ h
    · rw [Option.some_inj] at hr
      rw [← hr]
      exact kl_cb_remove cb.chat_id cb.message_id _ h
    · rw [Option.some_inj] at hr
      rw [← hr]
      exact h
  · intro allowed d cid user rawText h
    by_cases ha : is_authorized allowed user = true
    · by_cases hp : (dictGet cid d.adding_player).isSome
      · simpa [handle_message, ha, hp] using h
      · simpa [handle_message, ha, hp] using h
    · simpa [handle_message, ha] using h
  · intro fetchR d h
    cases hc : d.chat_id with
    | none => simpa [monitor_iteration, hc] using h
    | some cid =>
        by_cases hz : cid = 0
        · simpa [monitor_iteration, hc, hz] using h
        · have := keys_lowered_monitor_pass fetchR cid d d.players [] rfl h
          simpa [monitor_iteration, hc, hz] using this

/-- C9 witness: the invariant holds after an add, after a message, and
after a monitor iteration, starting from concrete invariant-satisfying
states. -/
theorem C9_registry_key_invariant_witness :
    keys_lowered fooAdded.players = true ∧
    keys_lowered (handle_message ["alice"] wraithData 3 "alice" "hi").1.players = true ∧
    keys_lowered (monitor_iteration fetchInMatch wraithData).1.players = true :=
  ⟨C9_registry_key_invariant.1 fetchNone emptyData cbAddFoo
      (fooAdded, [.answerCallback "cb3", .save fooAdded,
                  .editMessage 5 9 "✅ 成功添加玩家：Foo （PC）"])
      (by decide) (by decide),
   C9_registry_key_invariant.2.1 ["alice"] wraithData 3 "alice" "hi" (by decide),
   C9_registry_key_invariant.2.2 fetchInMatch wraithData (by decide)⟩

end ApexBot
